import Mathlib

/-!
Verification of the gsp-aircond-modbus service layer.

This development shallowly embeds the state and control flow of the
Modbus/MQTT air-conditioning services:

* `src/src/modbus/modbus.service.improved.ts` — `ModbusServiceImproved`
  (retry executor `executeWithRetry`, link switch `switchToDevice`,
  statistics `masterStats`/`updateStats`, the polling cycle `pollDevices`,
  and the write-with-confirmation setters), plus the `ModbusService`
  variants concatenated in the same file (the `isPolling`-guarded
  `pollDevices`, and the priority queue entry points
  `readRegisterWithPriority` / `writeRegisterWithPriority`);
* `src/src/mqtt/aircond-mqtt.service.ts` — `AircondMqttService`
  (`handleMqttMessage`, `pushToFrontend`).

External collaborators (the modbus-serial protocol client, timers, the MQTT
client) are modelled as environments: a schedule giving, per attempt, whether
link acquisition succeeds and how each protocol operation resolves or
rejects.  JavaScript numbers are modelled as `Rat` (every value the code
manipulates — small integers and `raw * 0.5 - 20` temperatures — is exactly
representable), raw 16-bit register words as `Nat`.
-/

/-- Retry bound `MAX_RETRIES = 3` (modbus.service.improved.ts line 30). -/
def MAX_RETRIES : Nat := 3

/-- Base inter-request delay `REQUEST_DELAY = 100` ms (line 33). -/
def REQUEST_DELAY : Nat := 100

/-- Address-switch settle delay `DEVICE_SWITCH_DELAY = 200` ms (line 32). -/
def DEVICE_SWITCH_DELAY : Nat := 200

/-- Master statistics record `masterStats` (lines 36-42): monotonic counters
of total/successful/failed requests plus the conflict and timeout
classification counters. -/
structure Stats where
  totalRequests : Nat
  successfulRequests : Nat
  failedRequests : Nat
  deviceConflicts : Nat
  timeoutErrors : Nat
deriving Repr, DecidableEq

/-- Zeroed statistics, as installed by the constructor and `resetStats`. -/
def Stats.init : Stats :=
  { totalRequests := 0, successfulRequests := 0, failedRequests := 0
    deviceConflicts := 0, timeoutErrors := 0 }

/-- Translation of `updateStats` (lines 185-192): bump the total and either
the success or the failure counter. -/
def updateStats (success : Bool) (s : Stats) : Stats :=
  if success then
    { s with totalRequests := s.totalRequests + 1
             successfulRequests := s.successfulRequests + 1 }
  else
    { s with totalRequests := s.totalRequests + 1
             failedRequests := s.failedRequests + 1 }

/-- Character-list version of JavaScript `String.prototype.includes`:
`charsLead pat l` holds when `pat` starts `l`. -/
def charsLead : List Char → List Char → Bool
  | [], _ => true
  | _ :: _, [] => false
  | a :: as, b :: bs => a == b && charsLead as bs

/-- Whether `pat` occurs contiguously inside `l`. -/
def charsContain (pat : List Char) : List Char → Bool
  | [] => charsLead pat []
  | b :: bs => charsLead pat (b :: bs) || charsContain pat bs

/-- JavaScript `s.includes(pat)`. -/
def jsIncludes (s pat : String) : Bool :=
  charsContain pat.toList s.toList

/-- Error classification step of `executeWithRetry` (lines 164-170): a message
containing a cross-addressing signature increments `deviceConflicts`, a
timeout signature increments `timeoutErrors`, anything else only logs. -/
def classifyError (msg : String) (s : Stats) : Stats :=
  if jsIncludes msg "Unexpected data error" || jsIncludes msg "expected address" then
    { s with deviceConflicts := s.deviceConflicts + 1 }
  else if jsIncludes msg "timeout" then
    { s with timeoutErrors := s.timeoutErrors + 1 }
  else
    s

/-- Protocol operation descriptor: `client.readHoldingRegisters(register, 1)`
or `client.writeRegister(register, value)` (§6 protocol client). -/
inductive ModbusOp where
  | read (register : Nat)
  | write (register : Nat) (value : Rat)
deriving Repr, DecidableEq

/-- Outcome of one run of an `operation()` closure: the promise resolves with
a numeric payload, or rejects with an error message. -/
inductive OpOutcome where
  | ok (value : Rat)
  | err (msg : String)
deriving Repr, DecidableEq

/-- Environment for `executeWithRetry`: per attempt, whether
`switchToDevice` reports success, and how the delegated protocol operation
resolves.  Link contention and the device's responses are external to the
executor, so they enter the model as this schedule. -/
structure ExecEnv where
  switchOk : Nat → Bool
  opOutcome : ModbusOp → Nat → OpOutcome

/-- Result of an `executeWithRetry` call: the resolved value (`none` is the
JavaScript `null` sentinel) together with the updated statistics. -/
structure ExecOut where
  result : Option Rat
  stats : Stats
deriving Repr, DecidableEq

/-- Loop body of `executeWithRetry` (lines 140-183), as a fuel recursion over
the remaining iterations of `for (attempt = 0; attempt <= MAX_RETRIES; ...)`.
Each iteration: acquire the link via `switchToDevice` and abort the whole
call with `null` on failure; run the operation; on success record a success
statistic and return the result; on rejection classify the message, record a
failure statistic, and either give up (`attempt == MAX_RETRIES`) or continue
with the next attempt.  The inter-attempt `timeout` pauses carry no state and
are elided. -/
def executeGo (env : ExecEnv) (op : ModbusOp) : Nat → Nat → Stats → ExecOut
  | 0, _, stats => ⟨none, stats⟩
  | fuel + 1, attempt, stats =>
    if env.switchOk attempt then
      match env.opOutcome op attempt with
      | .ok v => ⟨some v, updateStats true stats⟩
      | .err msg =>
        let stats1 := updateStats false (classifyError msg stats)
        if attempt = MAX_RETRIES then ⟨none, stats1⟩
        else executeGo env op fuel (attempt + 1) stats1
    else ⟨none, stats⟩

/-- Translation of `executeWithRetry` (lines 140-183): run the attempt loop
from attempt 0 with `MAX_RETRIES + 1` iterations available. -/
def executeWithRetry (env : ExecEnv) (op : ModbusOp) (stats : Stats) : ExecOut :=
  executeGo env op (MAX_RETRIES + 1) 0 stats

/-- Mutable link-arbiter state of `ModbusServiceImproved`
(lines 24-25): the active device id and the switch-in-progress flag. -/
structure LinkState where
  currentDeviceId : Option Nat
  requestLock : Bool
deriving Repr, DecidableEq

/-- Code of `switchToDevice` up to its single suspension point
(`await this.timeout(DEVICE_SWITCH_DELAY)`, lines 114-125): either the call
completes synchronously (lock held → `false`; requested device already
active → `true`), or it sets `requestLock` and suspends for the settle
delay. -/
inductive SwitchStep where
  | done (result : Bool) (state : LinkState)
  | settling (state : LinkState)
deriving Repr, DecidableEq

/-- First segment of `switchToDevice(deviceId)` (lines 114-124): fail fast if
`requestLock` is set; succeed immediately if `currentDeviceId` already equals
`deviceId`; otherwise take the lock and suspend into the settle delay. -/
def switchStart (deviceId : Nat) (s : LinkState) : SwitchStep :=
  if s.requestLock then .done false s
  else if s.currentDeviceId = some deviceId then .done true s
  else .settling { s with requestLock := true }

/-- Second segment of `switchToDevice` after the settle delay
(lines 125-134): `client.setID`, record the new active device, and release
the lock in the `finally` block. -/
def switchResume (deviceId : Nat) (_ : LinkState) : Bool × LinkState :=
  (true, { currentDeviceId := some deviceId, requestLock := false })

/-- Run `switchToDevice` to completion with no interleaved caller: the
sequential composition of `switchStart` and `switchResume`. -/
def switchRun (deviceId : Nat) (s : LinkState) : Bool × LinkState :=
  match switchStart deviceId s with
  | .done b s' => (b, s')
  | .settling s' => switchResume deviceId s'

/-- Mode word decoding `convertMode` (lines 85-94). -/
def convertMode (mode : Rat) : String :=
  if mode = 0 then "Выключен"
  else if mode = 1 then "Охлаждение"
  else if mode = 2 then "Обогрев"
  else if mode = 3 then "Вентиляция"
  else if mode = 4 then "Авто"
  else "Неизвестно"

/-- Temperature conversion of `getAirTemperature` / `getWaterTemperature`
(lines 270, 284): `res.data[0] * 0.5 - 20`, with the raw 16-bit register word
`r` and the JavaScript literal `0.5 = 1/2`.  Exact: `r * 0.5` never rounds
for these operands. -/
def temperatureOfRaw (r : Nat) : Rat :=
  (r : Rat) * (1 / 2) - 20

/-- Pump flag decoding of `getPumpStatus` (line 298): `(raw & 0x01) !== 0`. -/
def pumpStatusOfRaw (r : Nat) : Bool :=
  (r &&& 0x01) != 0

/-- Valve flag decoding of `getValveStatus` (line 312):
`(raw & (1 << 9)) !== 0`. -/
def valveStatusOfRaw (r : Nat) : Bool :=
  (r &&& (1 <<< 9)) != 0

/-- Error-flag record of `DeviceState['errors']`
(src/src/modbus/device.types.ts). -/
structure DeviceErrors where
  tempSensorError : Bool
  waterTempSensor1Error : Bool
  waterTempSensor2Error : Bool
  fanSpeedError : Bool
  pumpError : Bool
deriving Repr, DecidableEq

/-- All-clear error record, as in `getInitialState` (lines 74-80). -/
def DeviceErrors.none : DeviceErrors :=
  { tempSensorError := false, waterTempSensor1Error := false
    waterTempSensor2Error := false, fanSpeedError := false, pumpError := false }

/-- Error word decoding of `getErrors` (lines 326-332): five flags from fixed
bit positions 2, 3, 4, 8 and 14 of register 1614. -/
def errorsOfRaw (r : Nat) : DeviceErrors :=
  { tempSensorError := (r &&& (1 <<< 2)) != 0
    waterTempSensor1Error := (r &&& (1 <<< 3)) != 0
    waterTempSensor2Error := (r &&& (1 <<< 4)) != 0
    fanSpeedError := (r &&& (1 <<< 8)) != 0
    pumpError := (r &&& (1 <<< 14)) != 0 }

/-- Canonical per-device state `DeviceState`
(src/src/modbus/device.types.ts).  JavaScript numbers are `Rat`. -/
structure DeviceState where
  id : String
  name : String
  isOnline : Bool
  mode : String
  isOn : Bool
  setTemperature : Rat
  fanSpeed : Rat
  temperature : Rat
  waterTemperature : Rat
  pumpStatus : Bool
  valveStatus : Bool
  errors : DeviceErrors
  protectionState : Rat
deriving Repr, DecidableEq

/-- Translation of `getInitialState(deviceId)` (lines 61-83): the all-zero,
offline state every configured device starts from. -/
def getInitialState (deviceId : Nat) : DeviceState :=
  { id := "AC_" ++ toString deviceId
    name := "Кондиционер 5" ++ toString deviceId
    isOnline := false, mode := "", isOn := false
    setTemperature := 0, fanSpeed := 0, temperature := 0, waterTemperature := 0
    pumpStatus := false, valveStatus := false
    errors := DeviceErrors.none, protectionState := 0 }

/-- JavaScript `x || d` on an optional number: `null` and `0` are falsy. -/
def jsOrNum (x : Option Rat) (d : Rat) : Rat :=
  match x with
  | none => d
  | some v => if v = 0 then d else v

/-- JavaScript `x || d` on an optional boolean: `null` and `false` are
falsy. -/
def jsOrBool (x : Option Bool) (d : Bool) : Bool :=
  match x with
  | none => d
  | some b => b || d

/-- Results of the nine sequential parameter reads of one `pollDevices`
device iteration (lines 407-432); `none` is a read whose `executeWithRetry`
returned `null`.  Temperatures arrive already converted, pump/valve/errors
already decoded, exactly as the `get*` methods return them. -/
structure DeviceReadResults where
  mode : Option Rat
  setTemperature : Option Rat
  fanSpeed : Option Rat
  temperature : Option Rat
  waterTemperature : Option Rat
  pumpStatus : Option Bool
  valveStatus : Option Bool
  errors : Option DeviceErrors
  protection : Option Rat
deriving Repr, DecidableEq

/-- Per-device body of `pollDevices` (lines 393-450): an availability-probe
failure keeps the previous state with only `isOnline` cleared (lines
394-403); a successful probe assembles the new state from the read results
(lines 434-447), with JavaScript `||` defaulting — `temp || 0`,
`pumpStatus || false`, `errors || previous.errors` (an object is always
truthy, so a failed errors read keeps the previous flags), and the
mode-dependent `mode`/`isOn` fields. -/
def pollDeviceStep (prev : DeviceState) (probe : Bool) (r : DeviceReadResults) :
    DeviceState :=
  if !probe then { prev with isOnline := false }
  else
    { prev with
        isOnline := true
        mode := match r.mode with | some m => convertMode m | none => ""
        isOn := match r.mode with | some m => decide (m > 0) | none => false
        setTemperature := jsOrNum r.setTemperature 0
        fanSpeed := jsOrNum r.fanSpeed 0
        temperature := jsOrNum r.temperature 0
        waterTemperature := jsOrNum r.waterTemperature 0
        pumpStatus := jsOrBool r.pumpStatus false
        valveStatus := jsOrBool r.valveStatus false
        errors := r.errors.getD prev.errors
        protectionState := jsOrNum r.protection 0 }

/-- Registry update of one `pollDevices` device iteration:
`this.devicesState.set(deviceId, updatedState)` (lines 400 and 449), over the
registry as a map from device id to state.  Returns the new registry and the
state appended to `updatedDevices`. -/
def pollOneDevice (registry : Nat → DeviceState) (deviceId : Nat)
    (probe : Bool) (r : DeviceReadResults) : (Nat → DeviceState) × DeviceState :=
  let newState := pollDeviceStep (registry deviceId) probe r
  (fun d => if d = deviceId then newState else registry d, newState)

/-- Configured device ids `deviceIds = [5, 6, 7]` (line 20). -/
def deviceIds : List Nat := [5, 6, 7]

/-- Environment of one poll cycle: the outcome of the reconnection attempt,
of each device's availability probe, and of each device's parameter reads. -/
structure PollEnv where
  reconnectOk : Bool
  probe : Nat → Bool
  reads : Nat → DeviceReadResults

/-- Service-level mutable state relevant to `ModbusService.pollDevices`:
the `isPolling` re-entrancy flag, the connection flag, and the device
registry `devicesState`. -/
structure ServiceState where
  isPolling : Bool
  isConnected : Bool
  registry : Nat → DeviceState

/-- Calls into the broadcast collaborator `ModbusGateway`. -/
inductive Broadcast where
  | devicesState (devices : List DeviceState)
  | error (msg : String)

/-- Device loop of `pollDevices` (lines 783-877): visit the configured
devices in order, update the registry entry of each, and accumulate the
updated states into `updatedDevices`. -/
def pollLoop (env : PollEnv) :
    List Nat → (Nat → DeviceState) → List DeviceState →
    (Nat → DeviceState) × List DeviceState
  | [], registry, acc => (registry, acc)
  | d :: rest, registry, acc =>
    let (registry', st) := pollOneDevice registry d (env.probe d) (env.reads d)
    pollLoop env rest registry' (acc ++ [st])

/-- Translation of `ModbusService.pollDevices` (lines 761-888, the
`@Interval`-scheduled cycle; the same body recurs at lines 1567-1694): a
re-entrant trigger while `isPolling` is dropped before anything else runs;
with no connection, a failed reconnect broadcasts an error and returns;
otherwise the flag is set, every configured device is processed, the one
`broadcastDevicesState(updatedDevices)` call is made, and the `finally`
block clears the flag. -/
def pollDevicesService (env : PollEnv) (s : ServiceState) :
    ServiceState × List Broadcast :=
  if s.isPolling then (s, [])
  else if !s.isConnected && !env.reconnectOk then
    (s, [.error "Устройство недоступно"])
  else
    let (registry', devices) := pollLoop env deviceIds s.registry []
    ({ isPolling := false, isConnected := true, registry := registry' },
     [.devicesState devices])

/-- Translation of `getOperatingMode` of `ModbusServiceImproved`
(lines 225-236): `executeWithRetry` around a read of register 1601. -/
def getOperatingModeImproved (env : ExecEnv) (stats : Stats) : ExecOut :=
  executeWithRetry env (.read 1601) stats

/-- Translation of `getTemperatureSetpoint` of `ModbusServiceImproved`
(lines 238-249): `executeWithRetry` around a read of register 1602. -/
def getTemperatureSetpointImproved (env : ExecEnv) (stats : Stats) : ExecOut :=
  executeWithRetry env (.read 1602) stats

/-- Translation of `getFanSpeed` of `ModbusServiceImproved`
(lines 251-262): `executeWithRetry` around a read of register 1603. -/
def getFanSpeedImproved (env : ExecEnv) (stats : Stats) : ExecOut :=
  executeWithRetry env (.read 1603) stats

/-- Translation of `setOperatingMode` of `ModbusServiceImproved`
(lines 475-505).  No input validation precedes the write.  The write goes
through `executeWithRetry`; a `null` write result returns `false`
(`writeRegister` resolves with an object, so `!writeResult` is exactly the
`null` test); otherwise, after the 200 ms settle pause, the same register is
read back through `getOperatingMode` and the setter succeeds exactly when
`readResult === mode`.  `envW` and `envR` schedule the write call and the
confirmation-read call respectively. -/
def setOperatingModeImproved (envW envR : ExecEnv) (stats : Stats)
    (mode : Rat) : Bool × Stats :=
  let w := executeWithRetry envW (.write 1601 mode) stats
  match w.result with
  | none => (false, w.stats)
  | some _ =>
    let r := getOperatingModeImproved envR w.stats
    (decide (r.result = some mode), r.stats)

/-- Translation of `setTemperatureSetpoint` of `ModbusServiceImproved`
(lines 507-542): reject a setpoint with `temperature < 16 || temperature >
30` before any I/O; then write register 1602 through `executeWithRetry`,
pause 200 ms, read the register back and succeed exactly when
`readResult === temperature`. -/
def setTemperatureSetpointImproved (envW envR : ExecEnv) (stats : Stats)
    (temperature : Rat) : Bool × Stats :=
  if temperature < 16 || temperature > 30 then (false, stats)
  else
    let w := executeWithRetry envW (.write 1602 temperature) stats
    match w.result with
    | none => (false, w.stats)
    | some _ =>
      let r := getTemperatureSetpointImproved envR w.stats
      (decide (r.result = some temperature), r.stats)

/-- Translation of `setFanSpeed` of `ModbusServiceImproved`
(lines 544-579): reject a speed with `speed < 0 || speed > 4` before any
I/O; then write register 1603 through `executeWithRetry`, pause 200 ms, read
the register back and succeed exactly when `readResult === speed`. -/
def setFanSpeedImproved (envW envR : ExecEnv) (stats : Stats)
    (speed : Rat) : Bool × Stats :=
  if speed < 0 || speed > 4 then (false, stats)
  else
    let w := executeWithRetry envW (.write 1603 speed) stats
    match w.result with
    | none => (false, w.stats)
    | some _ =>
      let r := getFanSpeedImproved envR w.stats
      (decide (r.result = some speed), r.stats)

/-- Request priority `'high' | 'normal' | 'low'` (line 1136). -/
inductive Priority where
  | high
  | normal
  | low
deriving Repr, DecidableEq

/-- Request kind `'read' | 'write'` (line 1133). -/
inductive ReqType where
  | read
  | write
deriving Repr, DecidableEq

/-- Queue unit of work `ModbusRequest` (lines 1130-1139). -/
structure ModbusRequest where
  id : String
  deviceId : Nat
  type : ReqType
  register : Nat
  value : Option Rat
  priority : Priority
  timestamp : Nat
  retryCount : Nat
deriving Repr, DecidableEq

/-- Translation of `addToQueue` (lines 1450-1464): push the request with a
generated id (`idStr`, from `Date.now()` and `Math.random()` — external),
the current timestamp `now`, and `retryCount: 0`. -/
def addToQueue (queue : List ModbusRequest) (idStr : String) (now : Nat)
    (deviceId : Nat) (type : ReqType) (register : Nat) (value : Option Rat)
    (priority : Priority) : List ModbusRequest × String :=
  (queue ++ [{ id := idStr, deviceId := deviceId, type := type
               register := register, value := value, priority := priority
               timestamp := now, retryCount := 0 }], idStr)

/-- Translation of `readRegisterWithPriority` (lines 1893-1925): enqueue the
read, then poll `checkResult` every 100 ms up to 100 times — but
`checkResult` unconditionally calls `resolve(null)` (lines 1907-1911; the
correlation with the queue consumer is not implemented), so the promise
resolves `null` on the first tick whatever the consumer later does.
`queueOutcome` is the value the queue consumer eventually obtains for this
request; it never reaches the returned promise. -/
def readRegisterWithPriority (queueOutcome : Option Rat)
    (queue : List ModbusRequest) (idStr : String) (now : Nat)
    (deviceId register : Nat) (priority : Priority) :
    List ModbusRequest × Option Rat :=
  ((addToQueue queue idStr now deviceId .read register none priority).1, none)

/-- Translation of `writeRegisterWithPriority` (lines 1930-1964): enqueue the
write, then poll `checkResult`, which unconditionally calls `resolve(false)`
(lines 1946-1950), so the promise resolves `false` whatever the consumer
later does with the request. -/
def writeRegisterWithPriority (queueSucceeded : Bool)
    (queue : List ModbusRequest) (idStr : String) (now : Nat)
    (deviceId register : Nat) (value : Rat) (priority : Priority) :
    List ModbusRequest × Bool :=
  ((addToQueue queue idStr now deviceId .write register (some value) priority).1,
   false)

/-- Topic keys of `TOPIC_MAP` (aircond-mqtt.service.ts lines 23-31): the
aggregator subscribes, per device, to exactly these seven semantically named
topics.  There is no error-word or protection-word topic. -/
inductive TopicKey where
  | mode
  | setpoint
  | fanSpeed
  | temperature
  | waterTemperature
  | pumpStatus
  | valveStatus
deriving Repr, DecidableEq

/-- Inbound bus message as seen by `handleMqttMessage`: the topic key, the
raw payload string, and `num`, the value of the JavaScript `Number(value)`
conversion performed by the handler (the conversion itself is a runtime
built-in; a finite parse result is assumed). -/
structure BusMsg where
  key : TopicKey
  value : String
  num : Rat
deriving Repr, DecidableEq

/-- JavaScript truncation toward zero, the first step of `ToInt32`. -/
def jsTrunc (q : Rat) : Int :=
  if q < 0 then -((-q).floor) else q.floor

/-- Bit pattern a JavaScript bitwise operator sees for a number: the
truncated value reduced modulo `2 ^ 32` (two's complement bits). -/
def jsToUint32 (q : Rat) : Nat :=
  ((jsTrunc q).emod (2 ^ 32)).toNat

/-- JavaScript `num & mask` for a natural-number mask, used by the
`valveStatus` branch `(num & (1 << 9)) !== 0` (line 140). -/
def jsBitAnd (q : Rat) (mask : Nat) : Nat :=
  jsToUint32 q &&& mask

/-- Mode decoding `parseMode` of `AircondMqttService` (lines 172-176). -/
def parseMode (val : Rat) : String :=
  if val = 0 then "Выключен"
  else if val = 2 then "Охлаждение"
  else "Неизвестно"

/-- Partial per-device state `Partial<DeviceState>` kept in
`AircondMqttService.states` (line 42): every field the topic handlers can
set is optional; fields never populated from the bus (the error flags, the
protection word) do not appear, matching the handler, which never writes
them (lines 119-142). -/
structure PartialDeviceState where
  id : String
  name : String
  isOnline : Option Bool
  mode : Option String
  isOn : Option Bool
  setTemperature : Option Rat
  fanSpeed : Option Rat
  temperature : Option Rat
  waterTemperature : Option Rat
  pumpStatus : Option Bool
  valveStatus : Option Bool
deriving Repr, DecidableEq

/-- Field update of `handleMqttMessage` (lines 112-156) on one device's
partial state: the switch on the topic key sets exactly one logical field
(two for `mode`, which also derives `isOn`), and every message marks the
device online. -/
def handleMqttMessage (st : PartialDeviceState) (m : BusMsg) :
    PartialDeviceState :=
  let st' :=
    match m.key with
    | .mode => { st with mode := some (parseMode m.num)
                         isOn := some (decide (m.num > 0)) }
    | .setpoint => { st with setTemperature := some m.num }
    | .fanSpeed => { st with fanSpeed := some m.num }
    | .temperature => { st with temperature := some m.num }
    | .waterTemperature => { st with waterTemperature := some m.num }
    | .pumpStatus => { st with pumpStatus := some (m.value == "1") }
    | .valveStatus => { st with valveStatus := some (jsBitAnd m.num (1 <<< 9) != 0) }
  { st' with isOnline := some true }

/-- State of `AircondMqttService` relevant to the push path: the per-device
partial states and the raw topic cache `rawMqtt`. -/
structure BusState where
  states : Nat → PartialDeviceState
  raw : Nat → List (TopicKey × String)

/-- Per-device initialisation of `onModuleInit` (line 62): id and display
name set, everything else unset. -/
def initialPartialState (id : Nat) : PartialDeviceState :=
  { id := "AC_" ++ toString id, name := "Кондиционер " ++ toString id
    isOnline := none, mode := none, isOn := none
    setTemperature := none, fanSpeed := none, temperature := none
    waterTemperature := none, pumpStatus := none, valveStatus := none }

/-- Aggregator state after `onModuleInit`: initial partial states for the
configured devices, empty raw caches. -/
def initialBusState : BusState :=
  { states := initialPartialState, raw := fun _ => [] }

/-- One inbound message applied to the service state: update the addressed
device's partial state via `handleMqttMessage` and record the raw payload in
`rawMqtt[id][key]` (lines 146-149). -/
def handleBusMessage (s : BusState) (id : Nat) (m : BusMsg) : BusState :=
  { states := fun d => if d = id then handleMqttMessage (s.states d) m else s.states d
    raw := fun d =>
      if d = id then (m.key, m.value) :: (s.raw d).filter (fun p => p.1 ≠ m.key)
      else s.raw d }

/-- Full device state as assembled and pushed by `pushToFrontend`
(lines 178-213): the optional fields defaulted with `??`, plus the
diagnostic raw-topic cache the push attaches. -/
structure BusDeviceState where
  id : String
  name : String
  isOnline : Bool
  mode : String
  isOn : Bool
  setTemperature : Rat
  fanSpeed : Rat
  temperature : Rat
  waterTemperature : Rat
  pumpStatus : Bool
  valveStatus : Bool
  errors : DeviceErrors
  protectionState : Rat
  rawMqtt : List (TopicKey × String)
deriving Repr, DecidableEq

/-- Snapshot assembly of `pushToFrontend` (lines 184-205) for one device:
each optional field defaults (`?? false`, `?? ''`, `?? 0`), and the error
flags and protection word are the literal constants the code writes — the
bus path never populates them. -/
def assembleBusDevice (st : PartialDeviceState) (raw : List (TopicKey × String)) :
    BusDeviceState :=
  { id := st.id, name := st.name
    isOnline := st.isOnline.getD false
    mode := st.mode.getD ""
    isOn := st.isOn.getD false
    setTemperature := st.setTemperature.getD 0
    fanSpeed := st.fanSpeed.getD 0
    temperature := st.temperature.getD 0
    waterTemperature := st.waterTemperature.getD 0
    pumpStatus := st.pumpStatus.getD false
    valveStatus := st.valveStatus.getD false
    errors := DeviceErrors.none
    protectionState := 0
    rawMqtt := raw }

/-- Translation of `pushToFrontend` (lines 178-213): assemble the full
collection over the configured devices and hand it to the broadcaster. -/
def pushToFrontend (s : BusState) : List BusDeviceState :=
  deviceIds.map fun id => assembleBusDevice (s.states id) (s.raw id)

/-- Concrete executor schedule: acquisition always succeeds, the operation
rejects on attempts 0 and 1 and resolves with 42 from attempt 2 on. -/
def envRetrySucceedsAt2 : ExecEnv :=
  { switchOk := fun _ => true
    opOutcome := fun _ i => if i < 2 then .err "Modbus timeout" else .ok 42 }

/-- Concrete executor schedule: acquisition always succeeds, every attempt
rejects with a cross-addressing signature. -/
def envAllReject : ExecEnv :=
  { switchOk := fun _ => true
    opOutcome := fun _ _ => .err "Unexpected data error" }

/-- Concrete executor schedule: acquisition succeeds only on attempt 0,
and the operation always rejects. -/
def envSwitchFailAt1 : ExecEnv :=
  { switchOk := fun i => i == 0
    opOutcome := fun _ _ => .err "crc error" }

/-- Concrete executor schedule: every write resolves and every read resolves
with the fixed value `r`. -/
def envReadsBack (r : Rat) : ExecEnv :=
  { switchOk := fun _ => true
    opOutcome := fun op _ =>
      match op with
      | .write _ _ => .ok 1
      | .read _ => .ok r }

/-- Idle link: no active device, no switch in progress. -/
def linkFree : LinkState := { currentDeviceId := none, requestLock := false }

/-- Busy link: device 5 active and a switch in progress. -/
def linkBusy : LinkState := { currentDeviceId := some 5, requestLock := true }

/-- Poll-read results in which every individual parameter read failed. -/
def allNoneReads : DeviceReadResults :=
  { mode := none, setTemperature := none, fanSpeed := none, temperature := none
    waterTemperature := none, pumpStatus := none, valveStatus := none
    errors := none, protection := none }

/-- Poll-read results in which every individual parameter read succeeded. -/
def sampleReads : DeviceReadResults :=
  { mode := some 2, setTemperature := some 22, fanSpeed := some 3
    temperature := some (5 / 2), waterTemperature := some 7
    pumpStatus := some true, valveStatus := some false
    errors := some { DeviceErrors.none with fanSpeedError := true }
    protection := some 4 }

/-- Previous registry entry whose last poll recorded a pump error and a
nonzero setpoint. -/
def prevWithPumpError : DeviceState :=
  { getInitialState 5 with
      setTemperature := 22
      errors := { DeviceErrors.none with pumpError := true } }

/-- Poll environment in which everything is reachable and every parameter
read fails. -/
def pollEnvQuiet : PollEnv :=
  { reconnectOk := true, probe := fun _ => true, reads := fun _ => allNoneReads }

/-- Service state captured mid-cycle: `isPolling` set. -/
def pollingState : ServiceState :=
  { isPolling := true, isConnected := true, registry := getInitialState }

/-- Concrete inbound bus traffic: three messages inside one debounce
window. -/
def busMsgsWitness : List (Nat × BusMsg) :=
  [(5, { key := .mode, value := "2", num := 2 }),
   (5, { key := .setpoint, value := "22", num := 22 }),
   (6, { key := .pumpStatus, value := "1", num := 1 })]

/-- Aggregator state after ingesting `busMsgsWitness`. -/
def busStateWitness : BusState :=
  busMsgsWitness.foldl (fun s p => handleBusMessage s p.1 p.2) initialBusState

/-- Error classification touches neither the success counter nor the failure
counter nor the total. -/
theorem classifyError_counters (m : String) (s : Stats) :
    (classifyError m s).successfulRequests = s.successfulRequests ∧
    (classifyError m s).failedRequests = s.failedRequests ∧
    (classifyError m s).totalRequests = s.totalRequests := by
  unfold classifyError
  split
  · exact ⟨rfl, rfl, rfl⟩
  · split <;> exact ⟨rfl, rfl, rfl⟩

/-- Recording a failed request bumps the failure and total counters only. -/
theorem updateStats_false_counters (s : Stats) :
    (updateStats false s).successfulRequests = s.successfulRequests ∧
    (updateStats false s).failedRequests = s.failedRequests + 1 ∧
    (updateStats false s).totalRequests = s.totalRequests + 1 := by
  simp [updateStats]

/-- Counter bookkeeping of one failed attempt of the retry loop. -/
theorem failedAttempt_counters (m : String) (s : Stats) :
    (updateStats false (classifyError m s)).successfulRequests
      = s.successfulRequests ∧
    (updateStats false (classifyError m s)).failedRequests
      = s.failedRequests + 1 ∧
    (updateStats false (classifyError m s)).totalRequests
      = s.totalRequests + 1 := by
  obtain ⟨h1, h2, h3⟩ := classifyError_counters m s
  obtain ⟨g1, g2, g3⟩ := updateStats_false_counters (classifyError m s)
  exact ⟨g1.trans h1, by rw [g2, h2], by rw [g3, h3]⟩

/-- Behaviour of the retry loop when attempts `attempt, …, attempt + k - 1`
reject, every acquisition up to attempt `attempt + k` succeeds, and attempt
`attempt + k` resolves: the loop returns the resolved value having recorded
one success and `k` failures. -/
theorem executeGo_ok_spec (env : ExecEnv) (op : ModbusOp) (t : Rat) (k : Nat) :
    ∀ (fuel attempt : Nat) (stats : Stats),
      k < fuel →
      attempt + k ≤ MAX_RETRIES →
      (∀ i, i ≤ k → env.switchOk (attempt + i) = true) →
      (∀ i, i < k → ∃ m, env.opOutcome op (attempt + i) = .err m) →
      env.opOutcome op (attempt + k) = .ok t →
      (executeGo env op fuel attempt stats).result = some t ∧
      (executeGo env op fuel attempt stats).stats.successfulRequests
        = stats.successfulRequests + 1 ∧
      (executeGo env op fuel attempt stats).stats.failedRequests
        = stats.failedRequests + k ∧
      (executeGo env op fuel attempt stats).stats.totalRequests
        = stats.totalRequests + (k + 1) := by
  induction k with
  | zero =>
    intro fuel attempt stats hfuel _ hsw _ hok
    match fuel, hfuel with
    | fuel + 1, _ =>
      have h0 : env.switchOk attempt = true := by simpa using hsw 0 (Nat.le_refl 0)
      have hok' : env.opOutcome op attempt = .ok t := by simpa using hok
      simp [executeGo, h0, hok', updateStats]
  | succ k ih =>
    intro fuel attempt stats hfuel hle hsw herr hok
    match fuel, hfuel with
    | fuel + 1, hfuel =>
      have h0 : env.switchOk attempt = true := by simpa using hsw 0 (Nat.zero_le _)
      obtain ⟨m, hm⟩ := herr 0 (Nat.succ_pos k)
      have hm' : env.opOutcome op attempt = .err m := by simpa using hm
      have hne : attempt ≠ MAX_RETRIES := by omega
      have step : executeGo env op (fuel + 1) attempt stats
          = executeGo env op fuel (attempt + 1)
              (updateStats false (classifyError m stats)) := by
        simp [executeGo, h0, hm', hne]
      have hsw' : ∀ i, i ≤ k → env.switchOk (attempt + 1 + i) = true := by
        intro i hi
        have h := hsw (i + 1) (by omega)
        rw [show attempt + (i + 1) = attempt + 1 + i by omega] at h
        exact h
      have herr' : ∀ i, i < k → ∃ m', env.opOutcome op (attempt + 1 + i) = .err m' := by
        intro i hi
        obtain ⟨m', h⟩ := herr (i + 1) (by omega)
        rw [show attempt + (i + 1) = attempt + 1 + i by omega] at h
        exact ⟨m', h⟩
      have hok' : env.opOutcome op (attempt + 1 + k) = .ok t := by
        rw [show attempt + 1 + k = attempt + (k + 1) by omega]
        exact hok
      obtain ⟨hres, hsucc, hfail, htot⟩ :=
        ih fuel (attempt + 1) (updateStats false (classifyError m stats))
          (by omega) (by omega) hsw' herr' hok'
      obtain ⟨c1, c2, c3⟩ := failedAttempt_counters m stats
      refine ⟨?_, ?_, ?_, ?_⟩ <;> rw [step]
      · exact hres
      · rw [hsucc, c1]
      · rw [hfail, c2]; omega
      · rw [htot, c3]; omega

/-- Behaviour of the retry loop when every remaining attempt rejects and
every acquisition succeeds: the loop exhausts `fuel` iterations, returns the
`null` sentinel and records `fuel` failures and no success. -/
theorem executeGo_allErr_spec (env : ExecEnv) (op : ModbusOp) :
    ∀ (fuel : Nat), ∀ (attempt : Nat) (stats : Stats),
      attempt + fuel = MAX_RETRIES + 1 →
      (∀ i, attempt ≤ i → i ≤ MAX_RETRIES → env.switchOk i = true) →
      (∀ i, attempt ≤ i → i ≤ MAX_RETRIES → ∃ m, env.opOutcome op i = .err m) →
      (executeGo env op fuel attempt stats).result = none ∧
      (executeGo env op fuel attempt stats).stats.successfulRequests
        = stats.successfulRequests ∧
      (executeGo env op fuel attempt stats).stats.failedRequests
        = stats.failedRequests + fuel ∧
      (executeGo env op fuel attempt stats).stats.totalRequests
        = stats.totalRequests + fuel := by
  intro fuel
  induction fuel with
  | zero =>
    intro attempt stats _ _ _
    simp [executeGo]
  | succ fuel ih =>
    intro attempt stats heq hsw herr
    have h0 : env.switchOk attempt = true := hsw attempt (Nat.le_refl _) (by omega)
    obtain ⟨m, hm⟩ := herr attempt (Nat.le_refl _) (by omega)
    obtain ⟨c1, c2, c3⟩ := failedAttempt_counters m stats
    by_cases hM : attempt = MAX_RETRIES
    · have hf : fuel = 0 := by omega
      subst hf
      subst hM
      refine ⟨?_, ?_, ?_, ?_⟩ <;> simp [executeGo, h0, hm, c1, c2, c3]
    · have step : executeGo env op (fuel + 1) attempt stats
          = executeGo env op fuel (attempt + 1)
              (updateStats false (classifyError m stats)) := by
        simp [executeGo, h0, hm, hM]
      obtain ⟨hres, hsucc, hfail, htot⟩ :=
        ih (attempt + 1) (updateStats false (classifyError m stats))
          (by omega) (fun i h1 h2 => hsw i (by omega) h2)
          (fun i h1 h2 => herr i (by omega) h2)
      refine ⟨?_, ?_, ?_, ?_⟩ <;> rw [step]
      · exact hres
      · rw [hsucc, c1]
      · rw [hfail, c2]; omega
      · rw [htot, c3]; omega

/-- Behaviour of the retry loop when attempts `attempt, …, attempt + j - 1`
reject but acquire the link, and acquisition fails at attempt `attempt + j`:
the call aborts there with the `null` sentinel, having recorded only the `j`
earlier operation failures — the arbiter step itself is not retried and adds
no statistic, and nothing after attempt `attempt + j` runs (the environment
is unconstrained beyond it). -/
theorem executeGo_switchFail_spec (env : ExecEnv) (op : ModbusOp) (j : Nat) :
    ∀ (fuel attempt : Nat) (stats : Stats),
      j < fuel →
      attempt + j ≤ MAX_RETRIES →
      (∀ i, i < j → env.switchOk (attempt + i) = true) →
      env.switchOk (attempt + j) = false →
      (∀ i, i < j → ∃ m, env.opOutcome op (attempt + i) = .err m) →
      (executeGo env op fuel attempt stats).result = none ∧
      (executeGo env op fuel attempt stats).stats.successfulRequests
        = stats.successfulRequests ∧
      (executeGo env op fuel attempt stats).stats.failedRequests
        = stats.failedRequests + j ∧
      (executeGo env op fuel attempt stats).stats.totalRequests
        = stats.totalRequests + j := by
  induction j with
  | zero =>
    intro fuel attempt stats hfuel _ _ hsf _
    match fuel, hfuel with
    | fuel + 1, _ =>
      have h0 : env.switchOk attempt = false := by simpa using hsf
      simp [executeGo, h0]
  | succ j ih =>
    intro fuel attempt stats hfuel hle hsw hsf herr
    match fuel, hfuel with
    | fuel + 1, hfuel =>
      have h0 : env.switchOk attempt = true := by simpa using hsw 0 (Nat.succ_pos j)
      obtain ⟨m, hm⟩ := herr 0 (Nat.succ_pos j)
      have hm' : env.opOutcome op attempt = .err m := by simpa using hm
      have hne : attempt ≠ MAX_RETRIES := by omega
      have step : executeGo env op (fuel + 1) attempt stats
          = executeGo env op fuel (attempt + 1)
              (updateStats false (classifyError m stats)) := by
        simp [executeGo, h0, hm', hne]
      have hsw' : ∀ i, i < j → env.switchOk (attempt + 1 + i) = true := by
        intro i hi
        have h := hsw (i + 1) (by omega)
        rw [show attempt + (i + 1) = attempt + 1 + i by omega] at h
        exact h
      have hsf' : env.switchOk (attempt + 1 + j) = false := by
        rw [show attempt + 1 + j = attempt + (j + 1) by omega]
        exact hsf
      have herr' : ∀ i, i < j → ∃ m', env.opOutcome op (attempt + 1 + i) = .err m' := by
        intro i hi
        obtain ⟨m', h⟩ := herr (i + 1) (by omega)
        rw [show attempt + (i + 1) = attempt + 1 + i by omega] at h
        exact ⟨m', h⟩
      obtain ⟨hres, hsucc, hfail, htot⟩ :=
        ih fuel (attempt + 1) (updateStats false (classifyError m stats))
          (by omega) (by omega) hsw' hsf' herr'
      obtain ⟨c1, c2, c3⟩ := failedAttempt_counters m stats
      refine ⟨?_, ?_, ?_, ?_⟩ <;> rw [step]
      · exact hres
      · rw [hsucc, c1]
      · rw [hfail, c2]; omega
      · rw [htot, c3]; omega


/-- C1: for `executeWithRetry`, with link acquisition succeeding on every
attempt it reaches: if the operation rejects on attempts `0 … k-1` and
resolves on attempt `k ≤ MAX_RETRIES`, the call returns the resolved value
and the statistics gain exactly one success and `k` failures; if it rejects
on all `MAX_RETRIES + 1` attempts, the call returns the `null` sentinel and
the statistics gain exactly `MAX_RETRIES + 1` failures and no success. -/
theorem executeWithRetry_retry_statistics (env : ExecEnv) (op : ModbusOp)
    (stats : Stats) :
    (∀ (k : Nat) (t : Rat),
      k ≤ MAX_RETRIES →
      (∀ i, i ≤ k → env.switchOk i = true) →
      (∀ i, i < k → ∃ m, env.opOutcome op i = .err m) →
      env.opOutcome op k = .ok t →
      (executeWithRetry env op stats).result = some t ∧
      (executeWithRetry env op stats).stats.successfulRequests
        = stats.successfulRequests + 1 ∧
      (executeWithRetry env op stats).stats.failedRequests
        = stats.failedRequests + k) ∧
    ((∀ i, i ≤ MAX_RETRIES → env.switchOk i = true) →
     (∀ i, i ≤ MAX_RETRIES → ∃ m, env.opOutcome op i = .err m) →
     (executeWithRetry env op stats).result = none ∧
     (executeWithRetry env op stats).stats.successfulRequests
       = stats.successfulRequests ∧
     (executeWithRetry env op stats).stats.failedRequests
       = stats.failedRequests + (MAX_RETRIES + 1)) := by
  constructor
  · intro k t hk hsw herr hok
    have h := executeGo_ok_spec env op t k (MAX_RETRIES + 1) 0 stats (by omega)
      (by omega)
      (by intro i hi; simpa using hsw i hi)
      (by intro i hi; simpa using herr i hi)
      (by simpa using hok)
    exact ⟨h.1, h.2.1, h.2.2.1⟩
  · intro hsw herr
    have h := executeGo_allErr_spec env op (MAX_RETRIES + 1) 0 stats (by omega)
      (fun i _ hi => hsw i hi) (fun i _ hi => herr i hi)
    exact ⟨h.1, h.2.1, h.2.2.1⟩

/-- Witness for C1: failures on attempts 0 and 1 and success on attempt 2
yield the result 42 with one success and two failures from zeroed
statistics; four rejections yield `null` with four failures. -/
theorem executeWithRetry_retry_statistics_witness :
    (executeWithRetry envRetrySucceedsAt2 (.read 1601) Stats.init).result = some 42 ∧
    (executeWithRetry envRetrySucceedsAt2 (.read 1601) Stats.init).stats.successfulRequests = 1 ∧
    (executeWithRetry envRetrySucceedsAt2 (.read 1601) Stats.init).stats.failedRequests = 2 ∧
    (executeWithRetry envAllReject (.read 1601) Stats.init).result = none ∧
    (executeWithRetry envAllReject (.read 1601) Stats.init).stats.successfulRequests = 0 ∧
    (executeWithRetry envAllReject (.read 1601) Stats.init).stats.failedRequests = 4 := by
  have h1 := (executeWithRetry_retry_statistics envRetrySucceedsAt2 (.read 1601) Stats.init).1
    2 42 (by decide)
    (fun i _ => rfl)
    (fun i hi => ⟨"Modbus timeout", by simp [envRetrySucceedsAt2, hi]⟩)
    (by simp [envRetrySucceedsAt2])
  have h2 := (executeWithRetry_retry_statistics envAllReject (.read 1601) Stats.init).2
    (fun i _ => rfl) (fun i _ => ⟨"Unexpected data error", rfl⟩)
  refine ⟨h1.1, ?_, ?_, h2.1, ?_, ?_⟩
  · rw [h1.2.1]; rfl
  · rw [h1.2.2]; rfl
  · rw [h2.2.1]; rfl
  · rw [h2.2.2]; rfl

/-- C3: acquisition failure inside `executeWithRetry` aborts the whole call
with the `null` sentinel instead of retrying the arbiter step: with `j`
rejected-but-acquired attempts before it, an acquisition failure at attempt
`j` ends the call immediately — the environment beyond attempt `j` is
unconstrained, so nothing after it runs — and the statistics show only the
`j` earlier operation failures.  The switch failure is the immediate failure
of the whole operation call, landing inside the attempt loop (it consumes
attempt `j`). -/
theorem executeWithRetry_switch_failure_aborts (env : ExecEnv) (op : ModbusOp)
    (stats : Stats) (j : Nat)
    (hj : j ≤ MAX_RETRIES)
    (hsw : ∀ i, i < j → env.switchOk i = true)
    (hfail : env.switchOk j = false)
    (herr : ∀ i, i < j → ∃ m, env.opOutcome op i = .err m) :
    (executeWithRetry env op stats).result = none ∧
    (executeWithRetry env op stats).stats.successfulRequests
      = stats.successfulRequests ∧
    (executeWithRetry env op stats).stats.failedRequests
      = stats.failedRequests + j ∧
    (executeWithRetry env op stats).stats.totalRequests
      = stats.totalRequests + j := by
  exact executeGo_switchFail_spec env op j (MAX_RETRIES + 1) 0 stats (by omega)
    (by omega)
    (by intro i hi; simpa using hsw i hi)
    (by simpa using hfail)
    (by intro i hi; simpa using herr i hi)

/-- Witness for C3: one failed attempt, then an acquisition failure on
attempt 1, gives `null` with a single recorded failure. -/
theorem executeWithRetry_switch_failure_aborts_witness :
    (executeWithRetry envSwitchFailAt1 (.read 1601) Stats.init).result = none ∧
    (executeWithRetry envSwitchFailAt1 (.read 1601) Stats.init).stats.failedRequests = 1 := by
  have h := executeWithRetry_switch_failure_aborts envSwitchFailAt1 (.read 1601)
    Stats.init 1 (by decide)
    (fun i hi => by simp [envSwitchFailAt1]; omega)
    (by simp [envSwitchFailAt1])
    (fun i hi => ⟨"crc error", rfl⟩)
  exact ⟨h.1, by rw [h.2.2.1]; rfl⟩

/-- C2: the `switchToDevice` link arbiter fails immediately, without
waiting, whenever a switch is already in progress (`requestLock` set);
succeeds immediately with no settle delay when the requested device is
already active and no switch is in progress; and otherwise takes the lock,
settles, marks the new device active and releases the lock — so of two
back-to-back acquisitions for different devices, the second lands inside
the first one's settling window, observes `requestLock`, and fails fast
instead of both succeeding. -/
theorem switchToDevice_acquire_semantics (s : LinkState) (d1 d2 : Nat) :
    (s.requestLock = true → switchStart d1 s = .done false s) ∧
    (s.requestLock = false → s.currentDeviceId = some d1 →
      switchStart d1 s = .done true s) ∧
    (s.requestLock = false → s.currentDeviceId ≠ some d1 →
      switchStart d1 s = .settling { s with requestLock := true } ∧
      switchStart d2 { s with requestLock := true }
        = .done false { s with requestLock := true } ∧
      switchResume d1 { s with requestLock := true }
        = (true, { currentDeviceId := some d1, requestLock := false })) := by
  refine ⟨?_, ?_, ?_⟩
  · intro h
    simp [switchStart, h]
  · intro h1 h2
    simp [switchStart, h1, h2]
  · intro h1 h2
    exact ⟨by simp [switchStart, h1, h2], by simp [switchStart], rfl⟩

/-- Witness for C2: the busy link rejects an acquire for device 5; an idle
link already on device 5 accepts immediately; an idle link switching to
device 6 suspends with the lock held, and a back-to-back acquire for
device 7 then fails fast. -/
theorem switchToDevice_acquire_semantics_witness :
    switchStart 5 linkBusy = .done false linkBusy ∧
    switchStart 5 { currentDeviceId := some 5, requestLock := false }
      = .done true { currentDeviceId := some 5, requestLock := false } ∧
    switchStart 6 linkFree = .settling { linkFree with requestLock := true } ∧
    switchStart 7 { linkFree with requestLock := true }
      = .done false { linkFree with requestLock := true } := by
  have hb := (switchToDevice_acquire_semantics linkBusy 5 7).1 rfl
  have ha := (switchToDevice_acquire_semantics
    { currentDeviceId := some 5, requestLock := false } 5 7).2.1 rfl rfl
  have hc := (switchToDevice_acquire_semantics linkFree 6 7).2.2 rfl
    (by simp [linkFree])
  exact ⟨hb, ha, hc.1, hc.2.1⟩

/-- C4: every setter issues its write through `executeWithRetry`; a write
whose retries are exhausted (`null`) fails the setter; a non-null write
result is followed (after the settle pause) by a read of the same register
through the corresponding getter, and the setter succeeds exactly when the
read-back value equals the written value — a read-back of 20 after writing
22 fails the setter even though the write itself resolved.  The range
hypotheses on the two validating setters keep their pre-I/O validation out
of the way. -/
theorem setters_confirm_by_readback (envW envR : ExecEnv) (stats : Stats)
    (v : Rat) :
    ((setOperatingModeImproved envW envR stats v).1 = true ↔
      ((executeWithRetry envW (.write 1601 v) stats).result.isSome = true ∧
       (getOperatingModeImproved envR
          (executeWithRetry envW (.write 1601 v) stats).stats).result = some v)) ∧
    (16 ≤ v → v ≤ 30 →
      ((setTemperatureSetpointImproved envW envR stats v).1 = true ↔
        ((executeWithRetry envW (.write 1602 v) stats).result.isSome = true ∧
         (getTemperatureSetpointImproved envR
            (executeWithRetry envW (.write 1602 v) stats).stats).result = some v))) ∧
    (0 ≤ v → v ≤ 4 →
      ((setFanSpeedImproved envW envR stats v).1 = true ↔
        ((executeWithRetry envW (.write 1603 v) stats).result.isSome = true ∧
         (getFanSpeedImproved envR
            (executeWithRetry envW (.write 1603 v) stats).stats).result = some v))) := by
  refine ⟨?_, ?_, ?_⟩
  · unfold setOperatingModeImproved
    cases hw : (executeWithRetry envW (.write 1601 v) stats).result with
    | none => simp [hw]
    | some x => simp [hw]
  · intro h16 h30
    unfold setTemperatureSetpointImproved
    have hc : ¬(v < 16 ∨ v > 30) := by
      rintro (h | h)
      · exact absurd h (not_lt.mpr h16)
      · exact absurd h (not_lt.mpr h30)
    cases hw : (executeWithRetry envW (.write 1602 v) stats).result with
    | none => simp [hw, not_lt.mpr h16, not_lt.mpr h30]
    | some x => simp [hw, not_lt.mpr h16, not_lt.mpr h30]
  · intro h0 h4
    unfold setFanSpeedImproved
    cases hw : (executeWithRetry envW (.write 1603 v) stats).result with
    | none => simp [hw, not_lt.mpr h0, not_lt.mpr h4]
    | some x => simp [hw, not_lt.mpr h0, not_lt.mpr h4]

/-- Witness for C4: writing setpoint 22 with the device echoing 22 back
succeeds; the same write with the device reading back 20 fails despite the
write resolving. -/
theorem setters_confirm_by_readback_witness :
    (setTemperatureSetpointImproved (envReadsBack 22) (envReadsBack 22)
       Stats.init 22).1 = true ∧
    (setTemperatureSetpointImproved (envReadsBack 20) (envReadsBack 20)
       Stats.init 22).1 = false := by
  have h1 := (setters_confirm_by_readback (envReadsBack 22) (envReadsBack 22)
    Stats.init 22).2.1 (by norm_num) (by norm_num)
  have h2 := (setters_confirm_by_readback (envReadsBack 20) (envReadsBack 20)
    Stats.init 22).2.1 (by norm_num) (by norm_num)
  constructor
  · exact h1.mpr ⟨rfl, rfl⟩
  · cases hb : (setTemperatureSetpointImproved (envReadsBack 20) (envReadsBack 20)
        Stats.init 22).1 with
    | false => rfl
    | true => exact absurd (h2.mp hb).2 (by decide)

/-- Counterexample for C5 as stated: `setOperatingMode` of
`ModbusServiceImproved` performs no input validation (lines 475-505 have no
allowed-set check).  With mode 99 — outside any candidate allowed set: the
mode enumeration is 0-4, and the validating `ModbusService.setOperatingMode`
admits only 0 and 2 — the write and its confirmation read are both issued,
two statistics are recorded, and the setter even returns success when the
device echoes 99 back. -/
theorem setOperatingMode_no_validation_counterexample :
    (setOperatingModeImproved (envReadsBack 99) (envReadsBack 99)
       Stats.init 99).1 = true ∧
    (setOperatingModeImproved (envReadsBack 99) (envReadsBack 99)
       Stats.init 99).2.totalRequests = 2 := by
  constructor <;> rfl

/-- C5 amended: `setTemperatureSetpoint` rejects every setpoint outside the
closed range 16-30 and `setFanSpeed` rejects every speed outside 0-4 before
any I/O — the result is failure with the statistics untouched, identically
for every protocol environment, so no protocol operation is consulted.
`setOperatingMode` of `ModbusServiceImproved` performs no such validation
(see the counterexample). -/
theorem setters_input_validation_amended (envW envR : ExecEnv) (stats : Stats)
    (v : Rat) :
    (v < 16 ∨ v > 30 →
      setTemperatureSetpointImproved envW envR stats v = (false, stats)) ∧
    (v < 0 ∨ v > 4 →
      setFanSpeedImproved envW envR stats v = (false, stats)) := by
  constructor
  · intro h
    unfold setTemperatureSetpointImproved
    rcases h with h | h <;> simp [h]
  · intro h
    unfold setFanSpeedImproved
    rcases h with h | h <;> simp [h]

/-- Witness for C5 (amended): setpoint 31 and fan speed 31 are both rejected
with untouched statistics. -/
theorem setters_input_validation_amended_witness :
    setTemperatureSetpointImproved (envReadsBack 31) (envReadsBack 31)
      Stats.init 31 = (false, Stats.init) ∧
    setFanSpeedImproved (envReadsBack 31) (envReadsBack 31)
      Stats.init 31 = (false, Stats.init) := by
  have h := setters_input_validation_amended (envReadsBack 31) (envReadsBack 31)
    Stats.init 31
  exact ⟨h.1 (Or.inr (by norm_num)), h.2 (Or.inr (by norm_num))⟩

/-- C6: a `pollDevices` trigger while the service is already `Polling`
(`isPolling` set) is dropped before anything runs: for every environment the
service state — including the device registry — is returned unchanged and
nothing is handed to the broadcaster. -/
theorem pollDevices_reentrant_noop (env : PollEnv) (s : ServiceState)
    (h : s.isPolling = true) :
    pollDevicesService env s = (s, []) := by
  simp [pollDevicesService, h]

/-- Witness for C6: a trigger against a mid-cycle state is a no-op. -/
theorem pollDevices_reentrant_noop_witness :
    pollDevicesService pollEnvQuiet pollingState = (pollingState, []) :=
  pollDevices_reentrant_noop pollEnvQuiet pollingState rfl

/-- Counterexample for C7 as stated: with the availability probe succeeding
and the individual errors read failing, the freshly assembled online state
keeps the previous cycle's error flags (`errors || previous.errors`,
line 445) instead of substituting `false` — the stale pump error survives
into the new registry entry. -/
theorem pollDeviceStep_stale_errors_counterexample :
    (pollDeviceStep prevWithPumpError true allNoneReads).isOnline = true ∧
    allNoneReads.errors = none ∧
    (pollDeviceStep prevWithPumpError true allNoneReads).errors.pumpError = true := by
  refine ⟨rfl, rfl, rfl⟩

/-- JavaScript `x || 0` on a present number is the number itself (the `0`
case of the falsy test coincides with the default). -/
theorem jsOrNum_some_zero (v : Rat) : jsOrNum (some v) 0 = v := by
  by_cases h : v = 0 <;> simp [jsOrNum, h]

/-- JavaScript `x || false` on a present boolean is the boolean itself. -/
theorem jsOrBool_some_false (b : Bool) : jsOrBool (some b) false = b := by
  cases b <;> rfl

/-- C7 amended: a failed availability probe replaces the registry entry by
the previous state with only `isOnline` cleared; a successful probe writes a
state with `isOnline := true` in which each failed numeric read becomes `0`,
each failed flag read becomes `false`, and a failed mode read becomes the
empty mode with `isOn := false` — except the error-flag record, which keeps
its previous value when the errors read fails; each successful read's value
is taken as-is; and `pollOneDevice` installs exactly that state at the
polled id, leaving every other registry entry untouched. -/
theorem pollDeviceStep_assembly (prev : DeviceState) (r : DeviceReadResults)
    (registry : Nat → DeviceState) (deviceId : Nat) (probe : Bool) :
    (pollDeviceStep prev false r = { prev with isOnline := false }) ∧
    ((pollDeviceStep prev true r).isOnline = true) ∧
    (r.mode = none → (pollDeviceStep prev true r).mode = ""
      ∧ (pollDeviceStep prev true r).isOn = false) ∧
    (r.setTemperature = none → (pollDeviceStep prev true r).setTemperature = 0) ∧
    (∀ v, r.setTemperature = some v → (pollDeviceStep prev true r).setTemperature = v) ∧
    (r.fanSpeed = none → (pollDeviceStep prev true r).fanSpeed = 0) ∧
    (∀ v, r.fanSpeed = some v → (pollDeviceStep prev true r).fanSpeed = v) ∧
    (r.temperature = none → (pollDeviceStep prev true r).temperature = 0) ∧
    (∀ v, r.temperature = some v → (pollDeviceStep prev true r).temperature = v) ∧
    (r.waterTemperature = none → (pollDeviceStep prev true r).waterTemperature = 0) ∧
    (∀ v, r.waterTemperature = some v → (pollDeviceStep prev true r).waterTemperature = v) ∧
    (r.pumpStatus = none → (pollDeviceStep prev true r).pumpStatus = false) ∧
    (∀ b, r.pumpStatus = some b → (pollDeviceStep prev true r).pumpStatus = b) ∧
    (r.valveStatus = none → (pollDeviceStep prev true r).valveStatus = false) ∧
    (∀ b, r.valveStatus = some b → (pollDeviceStep prev true r).valveStatus = b) ∧
    (r.protection = none → (pollDeviceStep prev true r).protectionState = 0) ∧
    (∀ v, r.protection = some v → (pollDeviceStep prev true r).protectionState = v) ∧
    (r.errors = none → (pollDeviceStep prev true r).errors = prev.errors) ∧
    (∀ e, r.errors = some e → (pollDeviceStep prev true r).errors = e) ∧
    ((pollOneDevice registry deviceId probe r).1 deviceId
       = pollDeviceStep (registry deviceId) probe r) ∧
    (∀ d, d ≠ deviceId → (pollOneDevice registry deviceId probe r).1 d = registry d) := by
  refine ⟨rfl, rfl, ?_, ?_, ?_, ?_, ?_, ?_, ?_, ?_, ?_, ?_, ?_, ?_, ?_, ?_, ?_,
    ?_, ?_, ?_, ?_⟩
  · intro h; exact ⟨by simp [pollDeviceStep, h], by simp [pollDeviceStep, h]⟩
  · intro h; simp [pollDeviceStep, h, jsOrNum]
  · intro v h; simp [pollDeviceStep, h, jsOrNum_some_zero]
  · intro h; simp [pollDeviceStep, h, jsOrNum]
  · intro v h; simp [pollDeviceStep, h, jsOrNum_some_zero]
  · intro h; simp [pollDeviceStep, h, jsOrNum]
  · intro v h; simp [pollDeviceStep, h, jsOrNum_some_zero]
  · intro h; simp [pollDeviceStep, h, jsOrNum]
  · intro v h; simp [pollDeviceStep, h, jsOrNum_some_zero]
  · intro h; simp [pollDeviceStep, h, jsOrBool]
  · intro b h; simp [pollDeviceStep, h, jsOrBool_some_false]
  · intro h; simp [pollDeviceStep, h, jsOrBool]
  · intro b h; simp [pollDeviceStep, h, jsOrBool_some_false]
  · intro h; simp [pollDeviceStep, h, jsOrNum]
  · intro v h; simp [pollDeviceStep, h, jsOrNum_some_zero]
  · intro h; simp [pollDeviceStep, h]
  · intro e h; simp [pollDeviceStep, h]
  · simp [pollOneDevice]
  · intro d hd; simp [pollOneDevice, hd]

/-- Witness for C7 (amended): probe failure only clears `isOnline`; failed
reads default setpoint to 0 but keep the stale error flags; successful reads
land verbatim; the registry write leaves device 7 untouched when device 6 is
polled. -/
theorem pollDeviceStep_assembly_witness :
    pollDeviceStep prevWithPumpError false sampleReads
      = { prevWithPumpError with isOnline := false } ∧
    (pollDeviceStep prevWithPumpError true allNoneReads).setTemperature = 0 ∧
    (pollDeviceStep prevWithPumpError true allNoneReads).errors
      = prevWithPumpError.errors ∧
    (pollDeviceStep prevWithPumpError true sampleReads).setTemperature = 22 ∧
    (pollOneDevice getInitialState 6 true sampleReads).1 7 = getInitialState 7 := by
  obtain ⟨a1, _, _, a4, a5, _, _, _, _, _, _, _, _, _, _, _, _, a18, _, _, a21⟩ :=
    pollDeviceStep_assembly prevWithPumpError sampleReads getInitialState 6 true
  obtain ⟨_, _, _, b4, _, _, _, _, _, _, _, _, _, _, _, _, _, b18, _, _, _⟩ :=
    pollDeviceStep_assembly prevWithPumpError allNoneReads getInitialState 6 true
  exact ⟨a1, b4 rfl, b18 rfl, a5 22 rfl, a21 7 (by decide)⟩

/-- Bit extraction of the source's mask tests: `(w & 2^b) !== 0` is exactly
bit `b` of `w`. -/
theorem and_pow_ne_zero (w b : Nat) : ((w &&& 2 ^ b) != 0) = w.testBit b := by
  rw [Nat.and_two_pow]
  cases h : w.testBit b
  · simp
  · have := Nat.two_pow_pos b
    simp [Nat.pos_iff_ne_zero.mp this]

/-- Toggling a bit other than `b` leaves bit `b` unchanged. -/
theorem testBit_toggle_other (w j b : Nat) (h : j ≠ b) :
    (w ^^^ (1 <<< j)).testBit b = w.testBit b := by
  rw [Nat.testBit_xor, Nat.one_shiftLeft, Nat.testBit_two_pow_of_ne h, Bool.xor_false]

/-- C8: the derived temperature is `raw * 0.5 - 20`, exact — the raw word is
recovered exactly from it; the pump and valve flags are bits 0 and 9 of
their status words; the five error flags are bits 2, 3, 4, 8 and 14 of the
error word; and each flag depends only on its own bit — toggling any other
bit of the word leaves it unchanged, so each is independently toggleable. -/
theorem register_decoding_semantics (r w : Nat) :
    (temperatureOfRaw r = (r : Rat) * (1 / 2) - 20) ∧
    ((temperatureOfRaw r + 20) * 2 = (r : Rat)) ∧
    (pumpStatusOfRaw w = w.testBit 0) ∧
    (valveStatusOfRaw w = w.testBit 9) ∧
    ((errorsOfRaw w).tempSensorError = w.testBit 2) ∧
    ((errorsOfRaw w).waterTempSensor1Error = w.testBit 3) ∧
    ((errorsOfRaw w).waterTempSensor2Error = w.testBit 4) ∧
    ((errorsOfRaw w).fanSpeedError = w.testBit 8) ∧
    ((errorsOfRaw w).pumpError = w.testBit 14) ∧
    (∀ j, j ≠ 0 → pumpStatusOfRaw (w ^^^ (1 <<< j)) = pumpStatusOfRaw w) ∧
    (∀ j, j ≠ 9 → valveStatusOfRaw (w ^^^ (1 <<< j)) = valveStatusOfRaw w) ∧
    (∀ j, j ≠ 2 → (errorsOfRaw (w ^^^ (1 <<< j))).tempSensorError
      = (errorsOfRaw w).tempSensorError) ∧
    (∀ j, j ≠ 3 → (errorsOfRaw (w ^^^ (1 <<< j))).waterTempSensor1Error
      = (errorsOfRaw w).waterTempSensor1Error) ∧
    (∀ j, j ≠ 4 → (errorsOfRaw (w ^^^ (1 <<< j))).waterTempSensor2Error
      = (errorsOfRaw w).waterTempSensor2Error) ∧
    (∀ j, j ≠ 8 → (errorsOfRaw (w ^^^ (1 <<< j))).fanSpeedError
      = (errorsOfRaw w).fanSpeedError) ∧
    (∀ j, j ≠ 14 → (errorsOfRaw (w ^^^ (1 <<< j))).pumpError
      = (errorsOfRaw w).pumpError) := by
  refine ⟨rfl, by unfold temperatureOfRaw; ring, ?_, ?_, ?_, ?_, ?_, ?_, ?_,
    ?_, ?_, ?_, ?_, ?_, ?_, ?_⟩
  · exact and_pow_ne_zero w 0
  · exact and_pow_ne_zero w 9
  · exact and_pow_ne_zero w 2
  · exact and_pow_ne_zero w 3
  · exact and_pow_ne_zero w 4
  · exact and_pow_ne_zero w 8
  · exact and_pow_ne_zero w 14
  · intro j hj
    show ((w ^^^ (1 <<< j)) &&& 2 ^ 0 != 0) = (w &&& 2 ^ 0 != 0)
    rw [and_pow_ne_zero, and_pow_ne_zero, testBit_toggle_other w j 0 hj]
  · intro j hj
    show ((w ^^^ (1 <<< j)) &&& 2 ^ 9 != 0) = (w &&& 2 ^ 9 != 0)
    rw [and_pow_ne_zero, and_pow_ne_zero, testBit_toggle_other w j 9 hj]
  · intro j hj
    show ((w ^^^ (1 <<< j)) &&& 2 ^ 2 != 0) = (w &&& 2 ^ 2 != 0)
    rw [and_pow_ne_zero, and_pow_ne_zero, testBit_toggle_other w j 2 hj]
  · intro j hj
    show ((w ^^^ (1 <<< j)) &&& 2 ^ 3 != 0) = (w &&& 2 ^ 3 != 0)
    rw [and_pow_ne_zero, and_pow_ne_zero, testBit_toggle_other w j 3 hj]
  · intro j hj
    show ((w ^^^ (1 <<< j)) &&& 2 ^ 4 != 0) = (w &&& 2 ^ 4 != 0)
    rw [and_pow_ne_zero, and_pow_ne_zero, testBit_toggle_other w j 4 hj]
  · intro j hj
    show ((w ^^^ (1 <<< j)) &&& 2 ^ 8 != 0) = (w &&& 2 ^ 8 != 0)
    rw [and_pow_ne_zero, and_pow_ne_zero, testBit_toggle_other w j 8 hj]
  · intro j hj
    show ((w ^^^ (1 <<< j)) &&& 2 ^ 14 != 0) = (w &&& 2 ^ 14 != 0)
    rw [and_pow_ne_zero, and_pow_ne_zero, testBit_toggle_other w j 14 hj]

/-- Witness for C8: raw 45 converts to 2.5 and converts back; on the word
with bits 2 and 9 set, the valve flag is on and toggling bit 5 leaves the
pump flag alone. -/
theorem register_decoding_semantics_witness :
    (temperatureOfRaw 45 + 20) * 2 = (45 : Rat) ∧
    valveStatusOfRaw 516 = Nat.testBit 516 9 ∧
    pumpStatusOfRaw (516 ^^^ (1 <<< 5)) = pumpStatusOfRaw 516 := by
  obtain ⟨_, h2, _, h4, _⟩ := register_decoding_semantics 45 516
  obtain ⟨_, _, _, _, _, _, _, _, _, h10, _⟩ := register_decoding_semantics 45 516
  exact ⟨h2, h4, h10 5 (by decide)⟩

/-- C9: the priority entry points only enqueue: whatever value or success
the queue consumer eventually obtains for the enqueued request
(`queueOutcome` / `queueSucceeded`), the promise returned by
`readRegisterWithPriority` resolves `null` and the one returned by
`writeRegisterWithPriority` resolves `false`, while the queue gains exactly
the constructed request — the resolved value never reflects the real
outcome. -/
theorem priority_entry_points_never_observe_outcome
    (queueOutcome : Option Rat) (queueSucceeded : Bool)
    (queue : List ModbusRequest) (idStr : String) (now deviceId register : Nat)
    (value : Rat) (priority : Priority) :
    (readRegisterWithPriority queueOutcome queue idStr now deviceId register
       priority).2 = none ∧
    (writeRegisterWithPriority queueSucceeded queue idStr now deviceId register
       value priority).2 = false ∧
    (readRegisterWithPriority queueOutcome queue idStr now deviceId register
       priority).1
      = queue ++ [{ id := idStr, deviceId := deviceId, type := .read
                    register := register, value := none, priority := priority
                    timestamp := now, retryCount := 0 }] ∧
    (writeRegisterWithPriority queueSucceeded queue idStr now deviceId register
       value priority).1
      = queue ++ [{ id := idStr, deviceId := deviceId, type := .write
                    register := register, value := some value
                    priority := priority, timestamp := now, retryCount := 0 }] :=
  ⟨rfl, rfl, rfl, rfl⟩

/-- C10: every device state `pushToFrontend` hands to the broadcaster has
all five error flags `false` and `protectionState = 0`, after any sequence
of inbound topic messages — the aggregator's topic set (`TopicKey`) carries
no error or protection topic and `handleMqttMessage` never writes those
fields, while the push assembles them as literal constants. -/
theorem bus_push_never_populates_errors (msgs : List (Nat × BusMsg))
    (d : BusDeviceState)
    (hd : d ∈ pushToFrontend
      (msgs.foldl (fun s p => handleBusMessage s p.1 p.2) initialBusState)) :
    d.errors = DeviceErrors.none ∧ d.protectionState = 0 := by
  simp only [pushToFrontend, List.mem_map] at hd
  obtain ⟨id, _, rfl⟩ := hd
  exact ⟨rfl, rfl⟩

/-- Witness for C10: after three concrete messages, the pushed state of
device 5 has clear error flags and zero protection word. -/
theorem bus_push_never_populates_errors_witness :
    (assembleBusDevice (busStateWitness.states 5) (busStateWitness.raw 5)).errors
      = DeviceErrors.none ∧
    (assembleBusDevice (busStateWitness.states 5)
       (busStateWitness.raw 5)).protectionState = 0 := by
  refine bus_push_never_populates_errors busMsgsWitness _ ?_
  show _ ∈ List.map _ deviceIds
  exact List.mem_map_of_mem _ (by simp [deviceIds])
